import Mathlib

/-!
Verification of the server process manager of the `chatbot-widget` repository
(`src/chatbot_widget/mcp/server_manager.py`, class `MCPServerManager`).

The Python code is shallowly embedded: the registry dictionary becomes an
association list with distinct keys, OS-level effects (process spawning and
polling, socket binding, network round trips) become explicit oracle
parameters, and each manager method becomes a total Lean function returning
its result envelope together with the successor state.
-/

namespace ChatbotWidget

/-- A single-quote character, used to build the manager's message strings. -/
def sq : String := ⟨[Char.ofNat 39]⟩

/-! ## Python values

The manager's `**kwargs` hold arbitrary Python values; the fragment relevant
to CLI-argument construction is `None`, booleans, integers and strings. -/

/-- A Python value, as passed in `**kwargs` to `MCPServerManager.start`. -/
inductive PyVal where
  | none : PyVal
  | bool (b : Bool) : PyVal
  | int (n : Int) : PyVal
  | str (s : String) : PyVal
  deriving DecidableEq

/-- Python `==` on the modelled value fragment.  In Python, `True == 1`,
`False == 0`, and `None` is equal only to itself. -/
def pyEq : PyVal → PyVal → Bool
  | .none, .none => true
  | .bool a, .bool b => a == b
  | .bool a, .int n => (if a then (1 : Int) else 0) == n
  | .int n, .bool a => n == (if a then (1 : Int) else 0)
  | .int m, .int n => m == n
  | .str s, .str t => s == t
  | _, _ => false

/-- Python `str(v)` on the modelled value fragment. -/
def pyStr : PyVal → String
  | .none => "None"
  | .bool b => if b then "True" else "False"
  | .int n => toString n
  | .str s => s

/-- Python `v in (None, True)`: membership in a tuple is decided by `==`. -/
def pyIsNoneOrTrue (v : PyVal) : Bool :=
  pyEq v .none || pyEq v (.bool true)

/-- The `extra_args` list built by `MCPServerManager.start` (lines 103-107):
for each keyword argument the `--key` token is appended unconditionally, and
the stringified value is appended only when `v not in (None, True)`. -/
def extraArgs : List (String × PyVal) → List String
  | [] => []
  | (k, v) :: rest =>
      ("--" ++ k) ::
        ((if pyIsNoneOrTrue v then [] else [pyStr v]) ++ extraArgs rest)

/-! ## Log filtering (`MCPServerManager._filter_logs`) -/

/-- The log-level prefixes that end a suppressed block. -/
def LOG_PREFIXES : List String := ["INFO:", "WARNING:", "ERROR:", "DEBUG:"]

/-- The substrings that start a suppressed block of Windows noise. -/
def NOISE_TRIGGERS : List String :=
  ["[WinError 10054]", "ConnectionResetError",
   "_ProactorBasePipeTransport._call_connection_lost"]

/-- `needle` occurs as a contiguous substring of `hay` (Python `t in line`). -/
def hasSubstr (needle : List Char) : List Char → Bool
  | [] => needle.isEmpty
  | c :: rest => needle.isPrefixOf (c :: rest) || hasSubstr needle rest

/-- Python `any(t in line for t in NOISE_TRIGGERS)`. -/
def containsTrigger (line : String) : Bool :=
  NOISE_TRIGGERS.any (fun t => hasSubstr t.data line.data)

/-- Python `str.lstrip()`: drop leading whitespace characters. -/
def lstripChars : List Char → List Char
  | [] => []
  | c :: cs => if c.isWhitespace then lstripChars cs else c :: cs

/-- Python `line.lstrip().startswith(LOG_PREFIXES)`. -/
def startsWithLogPrefix (line : String) : Bool :=
  LOG_PREFIXES.any (fun p => p.data.isPrefixOf (lstripChars line.data))

/-- Python `not ln.strip()`: the line is empty or all whitespace. -/
def isBlankLine (line : String) : Bool :=
  line.data.all Char.isWhitespace

/-- First pass of `_filter_logs`: while not skipping, a line containing a
noise trigger is dropped and starts a suppressed block; while skipping, a
line whose `lstrip` starts with a log-level prefix is kept and ends the
block, and every other line is dropped. -/
def filterPass : Bool → List String → List String
  | _, [] => []
  | false, line :: rest =>
      if containsTrigger line then filterPass true rest
      else line :: filterPass false rest
  | true, line :: rest =>
      if startsWithLogPrefix line then line :: filterPass false rest
      else filterPass true rest

/-- Second pass of `_filter_logs`: collapse consecutive blank lines, keeping
a blank line only when the previous kept position was not blank. -/
def compactPass : Bool → List String → List String
  | _, [] => []
  | prevBlank, ln :: rest =>
      if !isBlankLine ln || !prevBlank then
        ln :: compactPass (isBlankLine ln) rest
      else
        compactPass (isBlankLine ln) rest

/-- `MCPServerManager._filter_logs` (lines 205-229). -/
def filter_logs (lines : List String) : List String :=
  compactPass false (filterPass false lines)

/-! ## Port allocation (`MCPServerManager._find_free_port`) -/

/-- The retry loop of `_find_free_port`: `randPort i` is the candidate drawn
by `random.randint(start, end)` on attempt `i`, and `bindable p` records
whether the exclusive bind-and-release probe of port `p` succeeds.  `none`
models the `RuntimeError` raised when the budget is exhausted. -/
def findPortAux (randPort : Nat → Nat) (bindable : Nat → Bool) :
    Nat → Nat → Option Nat
  | _, 0 => Option.none
  | i, fuel + 1 =>
      let p := randPort i
      if bindable p then some p else findPortAux randPort bindable (i + 1) fuel

/-- `MCPServerManager._find_free_port` (lines 55-63): 50 random probes. -/
def find_free_port (randPort : Nat → Nat) (bindable : Nat → Bool) : Option Nat :=
  findPortAux randPort bindable 0 50

/-! ## The registry and the manager state

`self._servers` is a Python dict `name -> info`; it is modelled as an
association list with pairwise-distinct keys.  The open log-file objects are
modelled by identifiers: `openStreams` is the set of file objects that are
currently open, and each record remembers the identifier of its own log
stream, so that leaking a file handle is observable in the model. -/

/-- One entry of `self._servers` (the dict built at lines 116-123). -/
structure ServerRecord where
  pid : Nat
  stream : Nat
  logFile : String
  port : Nat
  args : List (String × PyVal)
  scriptPath : String
  deriving DecidableEq

/-- The manager's mutable state: the registry plus the set of open log
streams. -/
structure ManagerState where
  servers : List (String × ServerRecord)
  openStreams : List Nat
  deriving DecidableEq

/-- Dict lookup `self._servers.get(name)` on the association list. -/
def lookupName (servers : List (String × ServerRecord)) (name : String) :
    Option ServerRecord :=
  match servers with
  | [] => Option.none
  | (n, r) :: rest => if n = name then some r else lookupName rest name

/-- Dict deletion `self._servers.pop(name)` (the keys are distinct, so
filtering removes exactly the entry for `name`). -/
def removeName (servers : List (String × ServerRecord)) (name : String) :
    List (String × ServerRecord) :=
  servers.filter (fun p => p.1 ≠ name)

/-- Python truthiness of the optional `port` argument: `not port` holds for
`None` and for `0`. -/
def portTruthy : Option Nat → Bool
  | Option.none => false
  | some p => p != 0

/-- `port = port or self._servers[name].get("port")` (line 235/262): the
explicit argument when truthy, the registered port otherwise. -/
def effectivePort (servers : List (String × ServerRecord)) (name : String)
    (port : Option Nat) : Nat :=
  if portTruthy port then port.getD 0
  else ((lookupName servers name).map ServerRecord.port).getD 0

/-! ## Health checking and tool listing -/

/-- `MCPServerManager.check_health` (lines 231-247).  `probe p` is the oracle
for the ping round trip against `http://127.0.0.1:p`: `true` when the ping
completes, `false` when any exception is raised (the `except` clause folds
every failure into `False`). -/
def check_health (servers : List (String × ServerRecord)) (name : String)
    (port : Option Nat) (probe : Nat → Bool) : Bool :=
  if !(lookupName servers name).isSome && !portTruthy port then false
  else probe (effectivePort servers name port)

/-- The port `check_health` probes, or `none` when the degenerate guard
`name not in self._servers and not port` returns `False` without any
network round trip. -/
def check_health_probe (servers : List (String × ServerRecord)) (name : String)
    (port : Option Nat) : Option Nat :=
  if !(lookupName servers name).isSome && !portTruthy port then Option.none
  else some (effectivePort servers name port)

/-- A tool as returned by the catalog query (only the name is needed). -/
structure ToolInfo where
  name : String
  deriving DecidableEq

/-- `MCPServerManager.list_tools` (lines 258-271).  `catalog p` is the oracle
for the `list_tools` round trip against port `p`. -/
def list_tools (servers : List (String × ServerRecord)) (name : String)
    (port : Option Nat) (catalog : Nat → List ToolInfo) : List ToolInfo :=
  if !(lookupName servers name).isSome && !portTruthy port then []
  else catalog (effectivePort servers name port)

/-- The port `list_tools` queries, or `none` when the guard returns the
empty list without any network round trip. -/
def list_tools_probe (servers : List (String × ServerRecord)) (name : String)
    (port : Option Nat) : Option Nat :=
  if !(lookupName servers name).isSome && !portTruthy port then Option.none
  else some (effectivePort servers name port)

/-! ## `start` -/

/-- The OS/network environment of one `start` call. -/
structure World where
  /-- `os.path.abspath`. -/
  absPath : String → String
  /-- `os.path.exists`. -/
  pathExists : String → Bool
  /-- The result of `self._find_free_port()`; `none` models the
  `RuntimeError` raised after 50 failed probes. -/
  freePort : Option Nat
  /-- The PID of the spawned subprocess. -/
  pid : Nat
  /-- The identifier of the log-file object opened by `open(log_file, "w")`. -/
  newStream : Nat
  /-- The ping oracle used by the post-launch `check_health`. -/
  probe : Nat → Bool

/-- The outcome of `start`: an error envelope, an uncaught exception, or the
success/warning payload of lines 127-133. -/
inductive StartResult where
  | error (message : String) : StartResult
  | exn (message : String) : StartResult
  | started (status : String) (message : String) (healthy : Bool)
      (port : Nat) (logFile : String) : StartResult
  deriving DecidableEq

/-- `MCPServerManager.start` (lines 65-133). -/
def start (st : ManagerState) (name scriptPath : String) (port : Option Nat)
    (logFile : Option String) (kwargs : List (String × PyVal)) (w : World) :
    StartResult × ManagerState :=
  if (lookupName st.servers name).isSome then
    (.error ("Server " ++ sq ++ name ++ sq ++ " already running."), st)
  else
    let script := w.absPath scriptPath
    if !w.pathExists script then
      (.error ("Script not found: " ++ script), st)
    else
      match (if portTruthy port then port else w.freePort) with
      | Option.none =>
          (.exn "No free port available in range 8600-8900.", st)
      | some p =>
          let lf :=
            match logFile with
            | some s => if s != "" then s else name ++ "_server.log"
            | Option.none => name ++ "_server.log"
          let rec0 : ServerRecord :=
            ⟨w.pid, w.newStream, lf, p, kwargs, script⟩
          let st1 : ManagerState :=
            ⟨st.servers ++ [(name, rec0)], st.openStreams ++ [w.newStream]⟩
          let healthy := check_health st1.servers name (some p) w.probe
          (.started (if healthy then "ok" else "warning")
              ("Started " ++ sq ++ name ++ sq ++ " on port " ++ toString p ++
                " (PID=" ++ toString w.pid ++ ")")
              healthy p lf,
            st1)

/-- One `start` invocation, for reasoning about call sequences. -/
structure StartCall where
  name : String
  scriptPath : String
  port : Option Nat
  logFile : Option String
  kwargs : List (String × PyVal)
  world : World

/-- Run a sequence of `start` calls from an initial state. -/
def runStarts (st : ManagerState) : List StartCall → ManagerState
  | [] => st
  | c :: cs =>
      runStarts (start st c.name c.scriptPath c.port c.logFile c.kwargs
        c.world).2 cs

/-! ## `stop` -/

/-- The process environment of one `stop` call. -/
structure StopWorld where
  /-- `proc.poll() is not None`: the child already exited on its own. -/
  alreadyExited : Bool
  /-- `proc.wait(timeout=3)` returns within the timeout (`false` models the
  `TimeoutExpired` exception caught at line 165). -/
  waitSucceeds : Bool
  /-- `str(e)` for the caught exception. -/
  timeoutMsg : String

/-- The status envelope returned by `stop`. -/
inductive StopResult where
  | ok (message : String) : StopResult
  | error (message : String) : StopResult
  deriving DecidableEq

/-- `MCPServerManager.stop` (lines 135-166).  Note that the
already-exited branch pops the record without closing `info["file"]`,
while the graceful-termination branch closes it before popping. -/
def stop (st : ManagerState) (name : String) (sw : StopWorld) :
    StopResult × ManagerState :=
  match lookupName st.servers name with
  | Option.none =>
      (.error ("No server named " ++ sq ++ name ++ sq ++ " found."), st)
  | some info =>
      if sw.alreadyExited then
        (.ok ("Process for " ++ sq ++ name ++ sq ++ " already stopped."),
          ⟨removeName st.servers name, st.openStreams⟩)
      else if sw.waitSucceeds then
        (.ok ("Stopped " ++ sq ++ name ++ sq ++ " (port=" ++
            toString info.port ++ ", PID=" ++ toString info.pid ++ ")."),
          ⟨removeName st.servers name, st.openStreams.erase info.stream⟩)
      else
        (.error sw.timeoutMsg, st)

/-! ## `test_tool` -/

/-- The envelope returned by `test_tool`: `{status: ok, result}` or
`{status: error, message}`. -/
inductive ToolCallResult where
  | ok (result : String) : ToolCallResult
  | error (message : String) : ToolCallResult
  deriving DecidableEq

/-- `MCPServerManager.test_tool` (lines 286-305).  `call p tool a` is the
oracle for the tool-call round trip against port `p`: `Except.error msg`
models any exception raised inside `run_async(_call())`, which the method
catches and wraps. -/
def test_tool (st : ManagerState) (serverName toolName : String)
    (args : Option (List (String × PyVal)))
    (call : Nat → String → List (String × PyVal) → Except String String) :
    ToolCallResult :=
  match lookupName st.servers serverName with
  | Option.none =>
      .error ("Server " ++ sq ++ serverName ++ sq ++ " not running.")
  | some info =>
      match call info.port toolName (args.getD []) with
      | .ok r => .ok r
      | .error e => .error e

/-! ## `restart` -/

/-- Modelled from the spec: the repository sources under `src/` define no
`restart` method (only the spec's §4.7 describes it).  Per the spec,
`restart(name, new_port?)` "requires existing record; fails with `NotFound`
otherwise.  Captures script path and current port from the record, stops the
server, then calls `start` again with the same (or overridden) port", with
the original launch args retained for the relaunch. -/
def restart (st : ManagerState) (name : String) (newPort : Option Nat)
    (sw : StopWorld) (w : World) : StartResult × ManagerState :=
  match lookupName st.servers name with
  | Option.none =>
      (.error ("No server named " ++ sq ++ name ++ sq ++ " found."), st)
  | some info =>
      let script := info.scriptPath
      let port := newPort.getD info.port
      let st1 := (stop st name sw).2
      start st1 name script (some port) Option.none info.args w

/-! ## Concrete fixtures for witnesses and counterexamples -/

/-- A concrete environment: every path exists, port 8765 is free, the spawn
gets PID 11 and log-stream identifier 3, and every ping succeeds. -/
def w0 : World :=
  ⟨fun s => s, fun _ => true, some 8765, 11, 3, fun _ => true⟩

/-- A concrete registry record for a server named `"a"`. -/
def recA : ServerRecord := ⟨11, 7, "a_server.log", 8765, [], "/tmp/a.py"⟩

/-- A state with the single server `"a"` whose log stream 7 is open. -/
def stA : ManagerState := ⟨[("a", recA)], [7]⟩

/-- The empty manager state. -/
def stEmpty : ManagerState := ⟨[], []⟩

/-- A concrete `start` invocation for the name `"a"`. -/
def callA : StartCall := ⟨"a", "a.py", Option.none, Option.none, [], w0⟩

/-- A stop environment where the child process already exited on its own. -/
def swExited : StopWorld := ⟨true, true, ""⟩

/-- A stop environment where graceful termination succeeds in time. -/
def swTerm : StopWorld := ⟨false, true, ""⟩

/-- A stop environment where `proc.wait(timeout=3)` times out. -/
def swTimeout : StopWorld := ⟨false, false, "timed out"⟩

/-! ## Theorems -/

/-- Helper: `lookupName` misses exactly when the name is not a key. -/
theorem lookupName_eq_none (servers : List (String × ServerRecord))
    (name : String) :
    lookupName servers name = Option.none ↔ name ∉ servers.map Prod.fst := by
  induction servers with
  | nil => simp [lookupName]
  | cons q rest ih =>
      obtain ⟨n, r⟩ := q
      by_cases h : n = name
      · subst h; simp [lookupName]
      · simp only [lookupName, h, if_false, List.map_cons, List.mem_cons, ih]
        constructor
        · intro hn hc
          rcases hc with hc | hc
          · exact h hc.symm
          · exact hn hc
        · intro hn hc
          exact hn (Or.inr hc)

/-- Helper: a `start` call either leaves the registry keys unchanged (any
error or exception branch) or appends exactly the fresh name, which was not
registered before. -/
theorem start_keys (st : ManagerState) (name sp : String) (p : Option Nat)
    (lf : Option String) (kw : List (String × PyVal)) (w : World) :
    (start st name sp p lf kw w).2.servers.map Prod.fst =
        st.servers.map Prod.fst ∨
    (lookupName st.servers name = Option.none ∧
      (start st name sp p lf kw w).2.servers.map Prod.fst =
        st.servers.map Prod.fst ++ [name]) := by
  unfold start
  cases hl : lookupName st.servers name with
  | some r => simp
  | none =>
      simp only [Option.isSome_none, Bool.false_eq_true, if_false]
      by_cases hb : w.pathExists (w.absPath sp)
      · simp only [hb, Bool.not_true, Bool.false_eq_true, if_false]
        cases hp : (if portTruthy p then p else w.freePort) with
        | none => simp [hp]
        | some q => simp [hp, hl]
      · simp [hb]

/-- C1 counterexample: on `kwargs = [seed ↦ 42, debug ↦ True, label ↦ None]`
the constructed list is `["--seed", "42", "--debug", "--label"]` — the
`--label` token IS emitted for the `None` value — so the list differs from
the claimed `["--seed", "42", "--debug"]`. -/
theorem C1_counterexample :
    extraArgs [("seed", .int 42), ("debug", .bool true), ("label", PyVal.none)]
        = ["--seed", "42", "--debug", "--label"] ∧
    extraArgs [("seed", .int 42), ("debug", .bool true), ("label", PyVal.none)]
        ≠ ["--seed", "42", "--debug"] := by
  exact ⟨by decide, by decide⟩

/-- C1 (amended): each key always yields its `--key` token; boolean true and
`None` yield a bare flag (only the value token is skipped), every other
value additionally yields its stringified value, so the example list equals
`["--seed", "42", "--debug", "--label"]`. -/
theorem C1_extra_args_amended :
    (extraArgs [("seed", .int 42), ("debug", .bool true), ("label", PyVal.none)]
        = ["--seed", "42", "--debug", "--label"]) ∧
    (∀ k rest, extraArgs ((k, PyVal.none) :: rest) =
        ("--" ++ k) :: extraArgs rest) ∧
    (∀ k rest, extraArgs ((k, PyVal.bool true) :: rest) =
        ("--" ++ k) :: extraArgs rest) ∧
    (∀ k v rest, pyIsNoneOrTrue v = false →
        extraArgs ((k, v) :: rest) =
          ("--" ++ k) :: pyStr v :: extraArgs rest) := by
  refine ⟨by decide, ?_, ?_, ?_⟩
  · intro k rest; simp [extraArgs, pyIsNoneOrTrue, pyEq]
  · intro k rest; simp [extraArgs, pyIsNoneOrTrue, pyEq]
  · intro k v rest h; simp [extraArgs, h]

/-- C1 (amended) witness: a plain integer value yields `--key` plus the
stringified value. -/
theorem C1_amended_witness :
    pyIsNoneOrTrue (.int 7) = false ∧
    extraArgs [("seed", .int 7)] = ["--seed", "7"] :=
  ⟨by decide, C1_extra_args_amended.2.2.2 "seed" (.int 7) [] (by decide)⟩

/-- C9: exclusion from the value position is decided by Python `==` against
`(None, True)`, so every value that compares equal to `True` or `None` —
such as the integer 1 — contributes only the bare `--key` token. -/
theorem C9_py_equality_bare_flag (k : String) (v : PyVal)
    (rest : List (String × PyVal))
    (h : (pyEq v PyVal.none || pyEq v (PyVal.bool true)) = true) :
    extraArgs ((k, v) :: rest) = ("--" ++ k) :: extraArgs rest := by
  simp [extraArgs, pyIsNoneOrTrue, h]

/-- C9 witness: the integer 1 compares equal to `True` under Python `==`,
and `start` then emits only `--seed` with no value token. -/
theorem C9_witness :
    pyEq (.int 1) (.bool true) = true ∧
    extraArgs [("seed", .int 1)] = ["--seed"] :=
  ⟨by decide, C9_py_equality_bare_flag "seed" (.int 1) [] (by decide)⟩

/-- C4: across any sequence of `start` calls the registry keeps at most one
record per name (its key list stays duplicate-free), and a `start` on an
already-registered name returns the error envelope
`Server '<name>' already running.` and leaves the whole state unaltered. -/
theorem C4_start_unique :
    (∀ (st : ManagerState) (calls : List StartCall),
        (st.servers.map Prod.fst).Nodup →
        ((runStarts st calls).servers.map Prod.fst).Nodup) ∧
    (∀ (st : ManagerState) (name sp : String) (p : Option Nat)
        (lf : Option String) (kw : List (String × PyVal)) (w : World),
        (lookupName st.servers name).isSome = true →
        start st name sp p lf kw w =
          (.error ("Server " ++ sq ++ name ++ sq ++ " already running."),
            st)) := by
  constructor
  · intro st calls
    induction calls generalizing st with
    | nil => intro h; exact h
    | cons c cs ih =>
        intro h
        have hstep :
            (((start st c.name c.scriptPath c.port c.logFile c.kwargs
                c.world).2).servers.map Prod.fst).Nodup := by
          rcases start_keys st c.name c.scriptPath c.port c.logFile c.kwargs
              c.world with hk | ⟨hn, hk⟩
          · rw [hk]; exact h
          · rw [hk]
            have hnm : c.name ∉ st.servers.map Prod.fst :=
              (lookupName_eq_none _ _).1 hn
            simp only [List.nodup_append, List.nodup_cons, List.nodup_nil,
              and_true, List.not_mem_nil, not_false_iff]
            exact ⟨h, trivial, by simp [List.disjoint_right, hnm]⟩
        rw [runStarts]
        exact ih _ hstep
  · intro st name sp p lf kw w h
    simp [start, h]

/-- C4 witness: starting `"a"` twice from the empty state keeps the key list
duplicate-free, and starting `"a"` while it is registered returns the
already-running envelope with the state unchanged. -/
theorem C4_witness :
    ((runStarts stEmpty [callA, callA]).servers.map Prod.fst).Nodup ∧
    start stA "a" "a.py" Option.none Option.none [] w0 =
      (.error ("Server " ++ sq ++ "a" ++ sq ++ " already running."), stA) :=
  ⟨C4_start_unique.1 stEmpty [callA, callA] (by simp [stEmpty]),
   C4_start_unique.2 stA "a" "a.py" Option.none Option.none [] w0 rfl⟩

/-- C2 counterexample: in the already-exited branch `stop` pops the record
for `"a"` but leaves its log stream 7 open — the removal of a record does
not always close the record's log stream. -/
theorem C2_counterexample :
    lookupName (stop stA "a" swExited).2.servers "a" = Option.none ∧
    (stop stA "a" swExited).2.openStreams = [7] ∧
    recA.stream ∈ (stop stA "a" swExited).2.openStreams :=
  ⟨rfl, rfl, by decide⟩

/-- C2 (amended): `stop` closes the record's log stream when graceful
termination succeeds within the timeout, but when the process has already
exited it removes the Registry record without closing the log stream, which
stays open. -/
theorem C2_stop_stream_amended (st : ManagerState) (name : String)
    (sw : StopWorld) (info : ServerRecord)
    (h : lookupName st.servers name = some info) :
    (sw.alreadyExited = false → sw.waitSucceeds = true →
      (stop st name sw).2 =
        ⟨removeName st.servers name, st.openStreams.erase info.stream⟩) ∧
    (sw.alreadyExited = true →
      (stop st name sw).2 = ⟨removeName st.servers name, st.openStreams⟩) := by
  constructor
  · intro h1 h2; simp [stop, h, h1, h2]
  · intro h1; simp [stop, h, h1]

/-- C2 (amended) witness: stopping `"a"` gracefully removes the record and
closes stream 7; stopping it when the process already exited removes the
record but keeps stream 7 open. -/
theorem C2_amended_witness :
    (stop stA "a" swTerm).2 = ⟨[], []⟩ ∧
    (stop stA "a" swExited).2 = ⟨[], [7]⟩ :=
  ⟨(C2_stop_stream_amended stA "a" swTerm recA rfl).1 rfl rfl,
   (C2_stop_stream_amended stA "a" swExited recA rfl).2 rfl⟩

/-- C5: when the process is still alive and the graceful wait times out,
`stop` returns the error envelope with the exception's message and the state
is completely unchanged — the record stays registered with its port, the log
stream stays open, and no kill is issued. -/
theorem C5_stop_timeout (st : ManagerState) (name : String) (sw : StopWorld)
    (info : ServerRecord) (h : lookupName st.servers name = some info)
    (h1 : sw.alreadyExited = false) (h2 : sw.waitSucceeds = false) :
    stop st name sw = (.error sw.timeoutMsg, st) := by
  simp [stop, h, h1, h2]

/-- C5 witness: a timed-out stop of `"a"` returns the error envelope and
leaves the state with its record and open stream untouched. -/
theorem C5_witness :
    stop stA "a" swTimeout = (.error "timed out", stA) :=
  C5_stop_timeout stA "a" swTimeout recA rfl rfl rfl

/-- C3: `restart(name, new_port?)` fails with the not-found envelope and an
unchanged state when no record exists for `name`; otherwise it captures the
record's script path and current port, stops the server, and calls `start`
again with the same (or the overridden) port. -/
theorem C3_restart_spec (st : ManagerState) (name : String)
    (newPort : Option Nat) (sw : StopWorld) (w : World) :
    (lookupName st.servers name = Option.none →
      restart st name newPort sw w =
        (.error ("No server named " ++ sq ++ name ++ sq ++ " found."), st)) ∧
    (∀ info, lookupName st.servers name = some info →
      restart st name newPort sw w =
        start (stop st name sw).2 name info.scriptPath
          (some (newPort.getD info.port)) Option.none info.args w) := by
  constructor
  · intro h; simp [restart, h]
  · intro info h; simp [restart, h]

/-- C3 witness: restarting an unknown name fails with the not-found
envelope, and restarting the registered `"a"` with an overridden port is the
stop of `"a"` followed by a `start` at the captured script path and the new
port. -/
theorem C3_witness :
    restart stEmpty "a" Option.none swTerm w0 =
      (.error ("No server named " ++ sq ++ "a" ++ sq ++ " found."),
        stEmpty) ∧
    restart stA "a" (some 9000) swTerm w0 =
      start (stop stA "a" swTerm).2 "a" recA.scriptPath (some 9000)
        Option.none recA.args w0 :=
  ⟨(C3_restart_spec stEmpty "a" Option.none swTerm w0).1 rfl,
   (C3_restart_spec stA "a" (some 9000) swTerm w0).2 recA rfl⟩

/-- C6: `test_tool` returns the not-running envelope when the server name is
unregistered, and otherwise returns `{status: ok, result}` when the tool
call succeeds and `{status: error, message}` when it raises — every outcome
of the call oracle is mapped to an envelope, never re-raised. -/
theorem C6_test_tool_envelope (st : ManagerState) (sn tn : String)
    (a : Option (List (String × PyVal)))
    (call : Nat → String → List (String × PyVal) → Except String String) :
    (lookupName st.servers sn = Option.none →
      test_tool st sn tn a call =
        .error ("Server " ++ sq ++ sn ++ sq ++ " not running.")) ∧
    (∀ info, lookupName st.servers sn = some info →
      ((∃ r, call info.port tn (a.getD []) = .ok r ∧
          test_tool st sn tn a call = .ok r) ∨
       (∃ m, call info.port tn (a.getD []) = .error m ∧
          test_tool st sn tn a call = .error m))) := by
  constructor
  · intro h; simp [test_tool, h]
  · intro info h
    cases hc : call info.port tn (a.getD []) with
    | ok r => exact Or.inl ⟨r, rfl, by simp [test_tool, h, hc]⟩
    | error m => exact Or.inr ⟨m, rfl, by simp [test_tool, h, hc]⟩

/-- C6 witness: calling a tool on the unregistered name `"a"` yields the
not-running error envelope. -/
theorem C6_witness :
    test_tool stEmpty "a" "roll" Option.none
        (fun _ _ _ => Except.ok "42") =
      .error ("Server " ++ sq ++ "a" ++ sq ++ " not running.") :=
  (C6_test_tool_envelope stEmpty "a" "roll" Option.none
    (fun _ _ _ => Except.ok "42")).1 rfl

/-- Helper: while in the skipping state, the filter drops every line that
does not resume (whose `lstrip` starts with no log-level prefix). -/
theorem filterPass_skip (err : String) (mid : List String)
    (hmid : ∀ l ∈ mid, startsWithLogPrefix l = false) :
    filterPass true (mid ++ [err]) = filterPass true [err] := by
  induction mid with
  | nil => rfl
  | cons l ls ih =>
      have hl : startsWithLogPrefix l = false := hmid l (by simp)
      simp only [List.cons_append, filterPass, hl, Bool.false_eq_true,
        if_false]
      exact ih (fun x hx => hmid x (by simp [hx]))

/-- Helper: a line that begins with `"ERROR:"` is untouched by `lstrip` and
resumes normal inclusion. -/
theorem startsWithLogPrefix_of_error (err : String)
    (he : ("ERROR:").data.isPrefixOf err.data = true) :
    startsWithLogPrefix err = true := by
  have hd : lstripChars err.data = err.data := by
    cases hdata : err.data with
    | nil => rw [hdata] at he; simp [List.isPrefixOf] at he
    | cons c cs =>
        rw [hdata] at he
        have hc : c = 'E' := by
          simp only [show ("ERROR:").data = ['E', 'R', 'R', 'O', 'R', ':']
            from rfl, List.isPrefixOf, Bool.and_eq_true, beq_iff_eq] at he
          exact he.1.symm
        rw [hc]
        simp [lstripChars]
  unfold startsWithLogPrefix
  rw [hd]
  simp only [LOG_PREFIXES, List.any_cons, List.any_nil, Bool.or_eq_true]
  exact Or.inr (Or.inr (Or.inl he))

/-- C7: for a trigger line followed by non-resuming lines followed by a line
beginning with `"ERROR:"`, the filter drops the trigger line and everything
between, and keeps the `"ERROR:"` line, which resumes normal inclusion: the
output is exactly the `"ERROR:"` line. -/
theorem C7_filter_suppression (trigger err : String) (mid : List String)
    (ht : containsTrigger trigger = true)
    (hmid : ∀ l ∈ mid, startsWithLogPrefix l = false)
    (he : ("ERROR:").data.isPrefixOf err.data = true) :
    filter_logs (trigger :: (mid ++ [err])) = [err] := by
  have hp : startsWithLogPrefix err = true := startsWithLogPrefix_of_error err he
  unfold filter_logs
  rw [show filterPass false (trigger :: (mid ++ [err])) =
      filterPass true (mid ++ [err]) by simp [filterPass, ht]]
  rw [filterPass_skip err mid hmid]
  simp [filterPass, hp, compactPass]

/-- C7 witness: a Windows connection-reset trigger line and the two junk
lines after it are dropped, and the `"ERROR:"` line is kept. -/
theorem C7_witness :
    filter_logs
        ["a ConnectionResetError b", "junk", "", "ERROR: boom"] =
      ["ERROR: boom"] :=
  C7_filter_suppression "a ConnectionResetError b" "ERROR: boom"
    ["junk", ""] (by decide) (by decide) (by decide)

/-- Helper: the retry loop of `_find_free_port` returns a bindable candidate
drawn on one of its attempts, and returns `none` only when every attempt in
its budget drew an unbindable candidate. -/
theorem findPortAux_spec (randPort : Nat → Nat) (bindable : Nat → Bool) :
    ∀ (fuel i : Nat),
      (∀ p, findPortAux randPort bindable i fuel = some p →
        ∃ j, i ≤ j ∧ j < i + fuel ∧ p = randPort j ∧ bindable p = true) ∧
      (findPortAux randPort bindable i fuel = Option.none →
        ∀ j, i ≤ j → j < i + fuel → bindable (randPort j) = false) := by
  intro fuel
  induction fuel with
  | zero =>
      intro i
      constructor
      · intro p h; simp [findPortAux] at h
      · intro _ j h1 h2; omega
  | succ f ih =>
      intro i
      constructor
      · intro p h
        cases hb : bindable (randPort i) with
        | true =>
            simp only [findPortAux, hb, if_true] at h
            have hpe : randPort i = p := by injection h
            exact ⟨i, le_refl i, by omega, hpe.symm, hpe ▸ hb⟩
        | false =>
            simp only [findPortAux, hb, Bool.false_eq_true, if_false] at h
            obtain ⟨j, hj1, hj2, hj3, hj4⟩ := (ih (i + 1)).1 p h
            exact ⟨j, by omega, by omega, hj3, hj4⟩
      · intro h j h1 h2
        cases hb : bindable (randPort i) with
        | true => simp [findPortAux, hb] at h
        | false =>
            simp only [findPortAux, hb, Bool.false_eq_true, if_false] at h
            rcases Nat.eq_or_lt_of_le h1 with rfl | hlt
            · exact hb
            · exact (ih (i + 1)).2 h j hlt (by omega)

/-- C8: under the `randint` contract that every drawn candidate lies in the
inclusive range, a successful `_find_free_port` returns a port inside the
range that was bindable at allocation time, and the failure (`RuntimeError`)
occurs only after all 50 random probe attempts failed to bind. -/
theorem C8_find_free_port (s e : Nat) (randPort : Nat → Nat)
    (bindable : Nat → Bool)
    (hr : ∀ i, s ≤ randPort i ∧ randPort i ≤ e) :
    (∀ p, find_free_port randPort bindable = some p →
        s ≤ p ∧ p ≤ e ∧ bindable p = true) ∧
    (find_free_port randPort bindable = Option.none →
        ∀ i, i < 50 → bindable (randPort i) = false) := by
  constructor
  · intro p h
    obtain ⟨j, _, _, hp, hbp⟩ :=
      (findPortAux_spec randPort bindable 50 0).1 p h
    exact ⟨hp ▸ (hr j).1, hp ▸ (hr j).2, hbp⟩
  · intro h i hi
    exact (findPortAux_spec randPort bindable 50 0).2 h i (Nat.zero_le i)
      (by omega)

/-- C8 witness: with every probe succeeding the allocator returns 8700,
which lies in [8600, 8900]; with every probe failing, each of the 50
attempts — attempt 5 among them — failed to bind. -/
theorem C8_witness :
    (8600 ≤ 8700 ∧ 8700 ≤ 8900 ∧ (fun _ : Nat => true) 8700 = true) ∧
    (fun _ : Nat => false) ((fun i : Nat => 8600 + i % 301) 5) = false :=
  ⟨(C8_find_free_port 8600 8900 (fun _ => 8700) (fun _ => true)
      (fun _ => ⟨by show 8600 ≤ 8700; omega, by show 8700 ≤ 8900; omega⟩)).1
      8700 rfl,
   (C8_find_free_port 8600 8900 (fun i => 8600 + i % 301) (fun _ => false)
      (fun i => ⟨by show 8600 ≤ 8600 + i % 301; omega,
        by show 8600 + i % 301 ≤ 8900; omega⟩)).2 rfl 5 (by omega)⟩

/-- C10 counterexample: with the explicit (but falsy) port 0 and an
unregistered name, `check_health` and `list_tools` return their degenerate
values without probing although an explicit port argument was given; and
`check_health` also returns `False` for a registered name when the probe
fails — so the degenerate value is not equivalent to "unregistered and no
explicit port". -/
theorem C10_counterexample :
    (check_health ([] : List (String × ServerRecord)) "a" (some 0)
        (fun _ => true) = false ∧
      (some 0 : Option Nat).isSome = true ∧
      check_health_probe [] "a" (some 0) = Option.none ∧
      list_tools [] "a" (some 0) (fun _ => [⟨"t"⟩]) = [] ∧
      list_tools_probe [] "a" (some 0) = Option.none) ∧
    check_health stA.servers "a" Option.none (fun _ => false) = false :=
  ⟨⟨rfl, rfl, rfl, rfl, rfl⟩, rfl⟩

/-- C10 (amended): `check_health` and `list_tools` take their degenerate
early return (`False`, resp. the empty list) without any probe iff the name
is unregistered and the port argument is falsy (absent or 0); with a nonzero
explicit port for an unregistered name both bypass the Registry and probe
that port directly. -/
theorem C10_guard_amended (servers : List (String × ServerRecord))
    (name : String) (port : Option Nat) (probe : Nat → Bool)
    (catalog : Nat → List ToolInfo) :
    (check_health_probe servers name port = Option.none ↔
      (lookupName servers name = Option.none ∧ portTruthy port = false)) ∧
    (check_health_probe servers name port = Option.none →
      check_health servers name port probe = false) ∧
    (list_tools_probe servers name port = Option.none ↔
      (lookupName servers name = Option.none ∧ portTruthy port = false)) ∧
    (list_tools_probe servers name port = Option.none →
      list_tools servers name port catalog = []) ∧
    (lookupName servers name = Option.none → ∀ p, port = some p → p ≠ 0 →
      check_health_probe servers name port = some p ∧
      check_health servers name port probe = probe p ∧
      list_tools_probe servers name port = some p ∧
      list_tools servers name port catalog = catalog p) := by
  refine ⟨?_, ?_, ?_, ?_, ?_⟩
  · cases hl : lookupName servers name with
    | none =>
        cases hp : portTruthy port with
        | true => simp [check_health_probe, hl, hp]
        | false => simp [check_health_probe, hl, hp]
    | some r => simp [check_health_probe, hl]
  · intro h
    cases hl : lookupName servers name with
    | none =>
        cases hp : portTruthy port with
        | true => simp [check_health_probe, hl, hp] at h
        | false => simp [check_health, hl, hp]
    | some r => simp [check_health_probe, hl] at h
  · cases hl : lookupName servers name with
    | none =>
        cases hp : portTruthy port with
        | true => simp [list_tools_probe, hl, hp]
        | false => simp [list_tools_probe, hl, hp]
    | some r => simp [list_tools_probe, hl]
  · intro h
    cases hl : lookupName servers name with
    | none =>
        cases hp : portTruthy port with
        | true => simp [list_tools_probe, hl, hp] at h
        | false => simp [list_tools, hl, hp]
    | some r => simp [list_tools_probe, hl] at h
  · intro hl p hp hz
    subst hp
    have ht : portTruthy (some p) = true := by
      simp [portTruthy, hz]
    simp [check_health_probe, check_health, list_tools_probe, list_tools,
      effectivePort, hl, ht]

/-- C10 (amended) witness: with the unregistered name `"a"` and the nonzero
explicit port 9000, both helpers bypass the Registry and probe port 9000. -/
theorem C10_witness :
    check_health_probe ([] : List (String × ServerRecord)) "a" (some 9000) =
        some 9000 ∧
    check_health [] "a" (some 9000) (fun _ => true) = true ∧
    list_tools_probe [] "a" (some 9000) = some 9000 ∧
    list_tools [] "a" (some 9000) (fun _ => [⟨"t"⟩]) = [⟨"t"⟩] :=
  (C10_guard_amended [] "a" (some 9000) (fun _ => true)
    (fun _ => [⟨"t"⟩])).2.2.2.2 rfl 9000 rfl (by omega)

end ChatbotWidget
